import Mathlib

/-!
Shallow embedding of the BeES weekly dashboard (`app.py`): the data fetch
normalization, the 30-week rolling-mean chart builder, the theme detector,
the per-ticker rendering loop, and the TTL cache contract.

Conventions: a pandas Series of weekly points is a list of
(date, optional value) pairs with dates as integers (days); prices are
modelled over the rationals (the source computes with IEEE floats; the
arithmetic here is the exact counterpart of the formulas in the source).
Python exceptions are modelled with `Except`.
-/

namespace Bees

/-- A weekly data column: ordered (date, value) points; `none` is a missing
value (NaN) for that week. -/
abbrev Series := List (Int × Option ℚ)

/-- A pandas DataFrame with two-level (MultiIndex) columns, as returned by
the fetcher: each column is keyed by (ticker, field). -/
abbrev PriceTable := List ((String × String) × Series)

/-- The column structure of the raw `yf.download` response: either already
MultiIndex (ticker, field) columns, or flat single-level field columns
(the single-ticker case where the outer ticker level is collapsed). -/
inductive RawData where
  | multiIndexed (cols : PriceTable)
  | flatCols (cols : List (String × Series))
deriving DecidableEq

/-- Python exception kinds that the embedded code can raise. -/
inductive PyError where
  | missingTicker (msg : String)
  | keyError (key : String)
  | indexError (msg : String)
  | valueError (msg : String)
deriving DecidableEq

/-- `str(exc)` for the exceptions above, as interpolated into warnings. -/
def msgOf : PyError → String
  | .missingTicker m => m
  | .keyError k => k
  | .indexError m => m
  | .valueError m => m

/-- Python `str.lower()` (restricted to the ASCII range used here). -/
def pyLower (s : String) : String := ⟨s.data.map Char.toLower⟩

/-- Python `not s.strip()`: true when the string has no non-whitespace
character. -/
def pyIsBlank (s : String) : Bool := s.data.all Char.isWhitespace

/-! ## Data fetcher (`download_weekly_data`, app.py lines 19-36) -/

/-- The request `download_weekly_data` issues: `end = dt.date.today()`,
`start = end - dt.timedelta(days=365 * years)`, weekly interval,
auto-adjusted.  Dates are integer day numbers. -/
structure DownloadRequest where
  startDate : Int
  endDate : Int
  interval : String
  autoAdjust : Bool
deriving DecidableEq

/-- app.py lines 21-31: the date window and fixed request parameters. -/
def downloadRequest (today : Int) (years : Int) : DownloadRequest :=
  { startDate := today - 365 * years
    endDate := today
    interval := "1wk"
    autoAdjust := true }

/-- app.py lines 32-36: normalization of the raw response.  MultiIndex
columns are returned unchanged; flat columns are re-keyed with
`tickers[0]` as the new outer level (raising IndexError when `tickers`
is empty, as Python list indexing does). -/
def download_weekly_data (tickers : List String) (raw : RawData) :
    Except PyError PriceTable :=
  match raw with
  | .multiIndexed cols => .ok cols
  | .flatCols cols =>
    match tickers.head? with
    | none => .error (.indexError "list index out of range")
    | some t0 => .ok (cols.map (fun c => ((t0, c.1), c.2)))

/-! ## Theme detection (`_is_dark_theme`, app.py lines 124-137) -/

/-- Value of a single hexadecimal digit character, `none` otherwise
(model of what `int(s, 16)` accepts digit-wise). -/
def hexDigitVal (c : Char) : Option ℕ :=
  if '0' ≤ c ∧ c ≤ '9' then some (c.toNat - 48)
  else if 'a' ≤ c ∧ c ≤ 'f' then some (c.toNat - 87)
  else if 'A' ≤ c ∧ c ≤ 'F' then some (c.toNat - 55)
  else none

/-- `int(⟨two hex digits⟩, 16)`: fails when a character is not a hex
digit (Python raises ValueError there). -/
def parseHex2 (a b : Char) : Option ℕ :=
  match hexDigitVal a, hexDigitVal b with
  | some x, some y => some (16 * x + y)
  | _, _ => none

/-- app.py line 135: perceptual luminance of 0-255 RGB components. -/
def luminance (r g b : ℕ) : ℚ :=
  (2126 / 10000 * (r : ℚ) + 7152 / 10000 * (g : ℚ) + 722 / 10000 * (b : ℚ)) / 255

/-- app.py line 129: `bg.startswith("#") and len(bg) in {4, 7}`. -/
def shapeOk (bg : String) : Bool :=
  bg.data.head? == some '#' && (bg.data.length == 4 || bg.data.length == 7)

/-- app.py lines 132-134: `int(bg[1:3], 16)`, `int(bg[3:5], 16)`,
`int(bg[5:7], 16)` on the six digit characters; `none` when a character
is not a hex digit (there Python raises ValueError). -/
def parseRGB (digits : List Char) : Option (ℕ × ℕ × ℕ) :=
  match digits with
  | [d1, d2, d3, d4, d5, d6] =>
    match parseHex2 d1 d2, parseHex2 d3 d4, parseHex2 d5 d6 with
    | some r, some g, some b => some (r, g, b)
    | _, _, _ => none
  | _ => none

/-- `_is_dark_theme` (app.py lines 124-137), with the two host options as
inputs (`base` for `theme.base`, `bg` for `theme.backgroundColor`, both
already defaulted to `""` as by `or ""`).  `int(_, 16)` on a non-hex
string raises ValueError, hence the `Except`. -/
def is_dark_theme (base bg : String) : Except PyError Bool :=
  let bl := pyLower base
  if bl = "dark" ∨ bl = "light" then .ok (bl == "dark")
  else if shapeOk bg then
    let digits := if bg.data.length = 4
      then (bg.data.drop 1).flatMap (fun c => [c, c])
      else bg.data.drop 1
    match parseRGB digits with
    | some (r, g, b) => .ok (decide (luminance r g b < 45 / 100))
    | none => .error (.valueError "invalid literal for int() with base 16")
  else .ok false

/-! ## Chart builder (`build_chart`, app.py lines 39-108) -/

/-- One `go.Scatter` trace. -/
structure Trace where
  x : List Int
  y : List ℚ
  name : String
  lineWidth : ℚ
  lineColor : String
  hovertemplate : String
deriving DecidableEq

/-- The figure attributes the source sets (traces plus `update_layout`,
`update_xaxes`, `update_yaxes` fields). -/
structure ChartSpec where
  traces : List Trace
  title : String
  titleFontColor : String
  titleFontSize : ℕ
  xaxisTitle : String
  yaxisTitle : String
  hovermode : String
  legendOrientation : String
  legendYanchor : String
  legendY : ℚ
  legendXanchor : String
  legendX : ℚ
  legendFontColor : String
  marginL : ℕ
  marginR : ℕ
  marginT : ℕ
  marginB : ℕ
  template : String
  paperBgcolor : String
  plotBgcolor : String
  fontColor : String
  xGridcolor : String
  yGridcolor : String
deriving DecidableEq

/-- `df.columns.get_level_values(0)`: the outer (ticker) level of the
MultiIndex columns. -/
def levelValues0 (df : PriceTable) : List String :=
  df.map (fun c => c.1.1)

/-- `df[ticker]`: the single-level sub-frame of the columns whose outer
key is `ticker`. -/
def selectTicker (df : PriceTable) (ticker : String) : List (String × Series) :=
  (df.filter (fun c => c.1.1 == ticker)).map (fun c => (c.1.2, c.2))

/-- `.dropna()` on the Close column: drop missing values, keeping dates
in order — the CloseSeries. -/
def closeSeriesOf (field : Series) : List (Int × ℚ) :=
  field.filterMap (fun p => p.2.map (fun v => (p.1, v)))

/-- Model of pandas `Series.rolling(window=w, min_periods=1).mean()` as
called at app.py line 46 (the input has no missing values, having been
produced by `.dropna()`): output i is the mean of the window of the last
`min (i+1) w` values ending at i. -/
def rollingMean (w : ℕ) (xs : List ℚ) : List ℚ :=
  (List.range xs.length).map (fun i =>
    let win := (xs.take (i + 1)).drop (i + 1 - w)
    win.sum / (win.length : ℚ))

/-- `fig.update_traces(hovertemplate=...)`: set the template on every
trace. -/
def updateTracesHover (t : String) (c : ChartSpec) : ChartSpec :=
  { c with traces := c.traces.map (fun tr => { tr with hovertemplate := t }) }

/-- The hover template string of app.py line 107 (braces escaped). -/
def hoverTemplate : String :=
  "%\x7bx|%Y-%m-%d\x7d<br>%\x7by:.2f\x7d<extra></extra>"

/-- `build_chart` (app.py lines 39-108).  Raises ValueError
`"No data returned for ..."` when `ticker` is not among the outer column
keys; thereafter `df[ticker]["Close"]` raises KeyError when the ticker
has no Close column. -/
def build_chart (df : PriceTable) (label ticker : String) (isDark : Bool) :
    Except PyError ChartSpec :=
  if ¬ (levelValues0 df).contains ticker then
    .error (.missingTicker ("No data returned for " ++ ticker))
  else
    match List.lookup "Close" (selectTicker df ticker) with
    | none => .error (.keyError "Close")
    | some closeField =>
      let close := closeSeriesOf closeField
      let sma30 := rollingMean 30 (close.map Prod.snd)
      let fontColor := if isDark then "#F0F0F0" else "#1A1A1A"
      let paperBg := if isDark then "#0E0E0E" else "#FAFAFA"
      let plotBg := if isDark then "#111111" else "#FFFFFF"
      let gridColor := if isDark then "#2A2A2A" else "#E6E6E6"
      .ok (updateTracesHover hoverTemplate
        { traces :=
            [ { x := close.map Prod.fst
                y := close.map Prod.snd
                name := label ++ " Close"
                lineWidth := 5 / 2
                lineColor := "#1F77B4"
                hovertemplate := "" }
            , { x := close.map Prod.fst
                y := sma30
                name := "30W SMA"
                lineWidth := 5 / 2
                lineColor := "#FF7F0E"
                hovertemplate := "" } ]
          title := label ++ " (" ++ ticker ++ ") - Weekly Close & 30W SMA"
          titleFontColor := fontColor
          titleFontSize := 16
          xaxisTitle := "Week"
          yaxisTitle := "Price"
          hovermode := "x unified"
          legendOrientation := "h"
          legendYanchor := "bottom"
          legendY := 102 / 100
          legendXanchor := "right"
          legendX := 1
          legendFontColor := fontColor
          marginL := 40
          marginR := 20
          marginT := 70
          marginB := 40
          template := if isDark then "plotly_dark" else "plotly_white"
          paperBgcolor := paperBg
          plotBgcolor := plotBg
          fontColor := fontColor
          xGridcolor := gridColor
          yGridcolor := gridColor })

/-! ## Per-ticker rendering loop (app.py lines 144-153) -/

/-- What one loop iteration emits to the page. -/
inductive RenderItem where
  | warning (msg : String)
  | chart (col : ℕ) (spec : ChartSpec)
deriving DecidableEq

/-- The `for idx, (label, ticker) in enumerate(custom.items())` loop:
blank tickers are skipped (still consuming an index), `build_chart` is
run under `try`, any exception becomes a warning naming label, ticker
and message (`except Exception`), a built chart goes to column
`idx % 2`. -/
def renderCharts (df : PriceTable) (isDark : Bool) :
    ℕ → List (String × String) → List RenderItem
  | _, [] => []
  | idx, (label, ticker) :: rest =>
    if pyIsBlank ticker then renderCharts df isDark (idx + 1) rest
    else
      match build_chart df label ticker isDark with
      | .error e =>
        .warning (label ++ " (" ++ ticker ++ ") - " ++ msgOf e)
          :: renderCharts df isDark (idx + 1) rest
      | .ok c => .chart (idx % 2) c :: renderCharts df isDark (idx + 1) rest

/-! ## Caching contract (`@st.cache_data(ttl=60 * 60)`, app.py line 19,
and the refresh handler, app.py lines 167-169) -/

/-- Modelled from the spec: the machinery of Streamlit's `st.cache_data`
decorator is not part of this repository; only its configuration
(`ttl=60 * 60` at app.py line 19) and the `download_weekly_data.clear()`
call of the refresh handler are.  The spec describes it as a
process-local cache keyed by the call parameters, reused within the TTL,
cleared wholesale by refresh. -/
structure CacheEntry where
  key : List String × Int
  insertedAt : Int
  value : PriceTable
deriving DecidableEq

/-- The single cache slot (empty or one stored result). -/
abbrev CacheState := Option CacheEntry

/-- app.py line 19: `ttl=60 * 60` seconds. -/
def cacheTTL : Int := 60 * 60

/-- Modelled from the spec: calling the cached fetcher at time `now` with
parameters `key`.  Returns the table, the new cache state, and whether a
network fetch happened. -/
def cachedFetch (fetch : List String × Int → PriceTable) (now : Int)
    (key : List String × Int) (st : CacheState) :
    PriceTable × CacheState × Bool :=
  match st with
  | some e =>
    if e.key = key ∧ now - e.insertedAt ≤ cacheTTL then (e.value, some e, false)
    else (fetch key, some ⟨key, now, fetch key⟩, true)
  | none => (fetch key, some ⟨key, now, fetch key⟩, true)

/-- app.py line 168: `download_weekly_data.clear()`. -/
def clearCache : CacheState → CacheState := fun _ => none

/-! ## Theorems -/

/-- C7: for every `years ≥ 1` the fetch window has `end` = current date
and `start` = `end` minus exactly `365 * years` days (fixed 365-day year,
no leap adjustment). -/
theorem download_window_spec (today years : Int) (h : 1 ≤ years) :
    (downloadRequest today years).endDate = today ∧
    (downloadRequest today years).startDate
      = (downloadRequest today years).endDate - 365 * years :=
  ⟨rfl, rfl⟩

/-- Witness for C7 at `today = 20000`, `years = 7`. -/
theorem download_window_spec_witness :
    (downloadRequest 20000 7).endDate = 20000 ∧
    (downloadRequest 20000 7).startDate
      = (downloadRequest 20000 7).endDate - 365 * 7 :=
  download_window_spec 20000 7 (by norm_num)

/-- C3: for a non-empty ticker list the fetch result is always a
two-level table: a response already keyed by (ticker, field) is returned
unchanged, a flat field-keyed response (the single-ticker case) is
re-keyed with the lone requested ticker as outer key, and the call never
fails, so the caller never branches on ticker count. -/
theorem download_normalizes (tickers : List String) (h : tickers ≠ []) :
    (∀ cols, download_weekly_data tickers (.multiIndexed cols) = .ok cols) ∧
    (∀ t cols, tickers = [t] →
      download_weekly_data tickers (.flatCols cols)
        = .ok (cols.map (fun c => ((t, c.1), c.2)))) ∧
    (∀ raw, ∃ tbl, download_weekly_data tickers raw = .ok tbl) := by
  obtain ⟨t0, rest, rfl⟩ : ∃ t0 rest, tickers = t0 :: rest := by
    cases tickers with
    | nil => exact absurd rfl h
    | cons a l => exact ⟨a, l, rfl⟩
  refine ⟨fun cols => rfl, ?_, ?_⟩
  · rintro t cols heq
    injection heq with h1 h2
    subst h1
    subst h2
    rfl
  · intro raw
    cases raw with
    | multiIndexed cols => exact ⟨cols, rfl⟩
    | flatCols cols => exact ⟨_, rfl⟩

/-- Witness for C3 at `tickers = ["A"]` and a flat one-column response. -/
theorem download_normalizes_witness :
    download_weekly_data ["A"] (.flatCols [("Close", [])])
      = .ok [(("A", "Close"), ([] : Series))] :=
  (download_normalizes ["A"] (by simp)).2.1 "A" [("Close", [])] rfl

/-- C10: the flat-response branch indexes `tickers[0]`: with an empty
ticker list and a flat response it raises IndexError instead of
returning a table, and otherwise the outer key it installs is always the
first requested ticker, whatever columns the flat response holds. -/
theorem download_flat_first_ticker :
    (∀ cols, download_weekly_data [] (.flatCols cols)
        = .error (.indexError "list index out of range")) ∧
    (∀ t0 rest cols, download_weekly_data (t0 :: rest) (.flatCols cols)
        = .ok (cols.map (fun c => ((t0, c.1), c.2)))) :=
  ⟨fun _ => rfl, fun _ _ _ => rfl⟩

/-- Evaluation of `cachedFetch` on an empty cache. -/
theorem cachedFetch_none (fetch : List String × Int → PriceTable)
    (now : Int) (key : List String × Int) :
    cachedFetch fetch now key none
      = (fetch key, some ⟨key, now, fetch key⟩, true) := rfl

/-- Evaluation of `cachedFetch` on a fresh matching entry. -/
theorem cachedFetch_some_fresh (fetch : List String × Int → PriceTable)
    (now : Int) (key : List String × Int) (e : CacheEntry)
    (h : e.key = key ∧ now - e.insertedAt ≤ cacheTTL) :
    cachedFetch fetch now key (some e) = (e.value, some e, false) := by
  simp only [cachedFetch]
  rw [if_pos h]

/-- Evaluation of `cachedFetch` on a stale or mismatched entry. -/
theorem cachedFetch_some_stale (fetch : List String × Int → PriceTable)
    (now : Int) (key : List String × Int) (e : CacheEntry)
    (h : ¬(e.key = key ∧ now - e.insertedAt ≤ cacheTTL)) :
    cachedFetch fetch now key (some e)
      = (fetch key, some ⟨key, now, fetch key⟩, true) := by
  simp only [cachedFetch]
  rw [if_neg h]

/-- C9: a call whose (tickers, years) key repeats within 3600 seconds of
a call that populated the cache, with no intervening refresh, returns
the cached table with no second network fetch; after `clearCache`
(refresh) the next call with any key refetches. -/
theorem cache_ttl_spec (fetch : List String × Int → PriceTable)
    (t1 t2 t3 : Int) (key key2 : List String × Int) (st st2 : CacheState)
    (hnet : (cachedFetch fetch t1 key st).2.2 = true)
    (hle : t1 ≤ t2) (httl : t2 - t1 ≤ cacheTTL) :
    ((cachedFetch fetch t2 key (cachedFetch fetch t1 key st).2.1).1
        = (cachedFetch fetch t1 key st).1 ∧
      (cachedFetch fetch t2 key (cachedFetch fetch t1 key st).2.1).2.2
        = false) ∧
    ((cachedFetch fetch t3 key2 (clearCache st2)).2.2 = true ∧
      (cachedFetch fetch t3 key2 (clearCache st2)).1 = fetch key2) := by
  constructor
  · cases st with
    | none =>
      rw [cachedFetch_none, cachedFetch_some_fresh fetch t2 key _ ⟨rfl, httl⟩]
      exact ⟨rfl, rfl⟩
    | some e =>
      by_cases hfresh : e.key = key ∧ t1 - e.insertedAt ≤ cacheTTL
      · exfalso
        rw [cachedFetch_some_fresh fetch t1 key e hfresh] at hnet
        simp at hnet
      · rw [cachedFetch_some_stale fetch t1 key e hfresh,
          cachedFetch_some_fresh fetch t2 key _ ⟨rfl, httl⟩]
        exact ⟨rfl, rfl⟩
  · rw [clearCache, cachedFetch_none]
    exact ⟨rfl, rfl⟩

/-- Witness for C9: a repeat call 10 seconds later hits the cache, and a
call after refresh refetches. -/
theorem cache_ttl_spec_witness :
    ((cachedFetch (fun _ => []) 10 (["A"], 7)
          (cachedFetch (fun _ => []) 0 (["A"], 7) none).2.1).1
        = (cachedFetch (fun _ => []) 0 (["A"], 7) none).1 ∧
      (cachedFetch (fun _ => []) 10 (["A"], 7)
          (cachedFetch (fun _ => []) 0 (["A"], 7) none).2.1).2.2
        = false) ∧
    ((cachedFetch (fun _ => []) 99 (["B"], 2) (clearCache none)).2.2 = true ∧
      (cachedFetch (fun _ => []) 99 (["B"], 2) (clearCache none)).1
        = (fun _ => ([] : PriceTable)) (["B"], 2)) :=
  cache_ttl_spec (fun _ => []) 0 10 99 (["A"], 7) (["B"], 2) none none
    rfl (by norm_num) (by norm_num [cacheTTL])

/-- C2: over tables satisfying the PriceTable invariant (every present
ticker carries a Close column), `build_chart` raises its
"No data returned for ..." error exactly when the ticker is not among
the outer column keys, and raises nothing for a present ticker — the
membership test is the only validation. -/
theorem build_chart_error_iff_missing (df : PriceTable)
    (label ticker : String) (isDark : Bool)
    (hclose : ∀ t, t ∈ levelValues0 df →
      List.lookup "Close" (selectTicker df t) ≠ none) :
    (ticker ∈ levelValues0 df →
      (build_chart df label ticker isDark).isOk = true) ∧
    (ticker ∉ levelValues0 df →
      build_chart df label ticker isDark
        = .error (.missingTicker ("No data returned for " ++ ticker))) := by
  constructor
  · intro hmem
    have hc : (levelValues0 df).contains ticker = true := List.elem_iff.mpr hmem
    obtain ⟨cf, hcf⟩ : ∃ cf,
        List.lookup "Close" (selectTicker df ticker) = some cf := by
      cases hlook : List.lookup "Close" (selectTicker df ticker) with
      | none => exact absurd hlook (hclose ticker hmem)
      | some cf => exact ⟨cf, rfl⟩
    simp only [build_chart]
    rw [if_neg (not_not_intro hc), hcf]
    rfl
  · intro hmem
    have hc : ¬ ((levelValues0 df).contains ticker = true) :=
      fun hcon => hmem (List.elem_iff.mp hcon)
    simp only [build_chart]
    rw [if_pos hc]

/-- Witness for C2 on a one-ticker table: "T1" builds, "T2" raises the
missing-ticker error. -/
theorem build_chart_error_iff_missing_witness :
    (("T2" : String) ∈ levelValues0 [(("T1", "Close"), ([] : Series))] →
      (build_chart [(("T1", "Close"), [])] "L" "T2" false).isOk = true) ∧
    (("T2" : String) ∉ levelValues0 [(("T1", "Close"), ([] : Series))] →
      build_chart [(("T1", "Close"), [])] "L" "T2" false
        = .error (.missingTicker ("No data returned for " ++ "T2"))) :=
  build_chart_error_iff_missing [(("T1", "Close"), [])] "L" "T2" false
    (by decide)

/-- C8: for a present ticker the built chart has exactly the two series
(Close in the fixed blue, SMA in the fixed orange), the specified title,
the date/2-decimal hover template on both traces, and the
theme-dependent palette. -/
theorem build_chart_style_spec (df : PriceTable) (label ticker : String)
    (isDark : Bool) (closeField : Series)
    (hmem : ticker ∈ levelValues0 df)
    (hcf : List.lookup "Close" (selectTicker df ticker) = some closeField) :
    ∃ c, build_chart df label ticker isDark = .ok c ∧
      c.traces.length = 2 ∧
      c.traces.map Trace.lineColor = ["#1F77B4", "#FF7F0E"] ∧
      c.traces.map Trace.name = [label ++ " Close", "30W SMA"] ∧
      c.traces.map Trace.hovertemplate = [hoverTemplate, hoverTemplate] ∧
      c.title = label ++ " (" ++ ticker ++ ") - Weekly Close & 30W SMA" ∧
      c.paperBgcolor = (if isDark then "#0E0E0E" else "#FAFAFA") ∧
      c.plotBgcolor = (if isDark then "#111111" else "#FFFFFF") ∧
      c.fontColor = (if isDark then "#F0F0F0" else "#1A1A1A") ∧
      c.xGridcolor = (if isDark then "#2A2A2A" else "#E6E6E6") ∧
      c.yGridcolor = (if isDark then "#2A2A2A" else "#E6E6E6") := by
  have hc : (levelValues0 df).contains ticker = true := List.elem_iff.mpr hmem
  simp only [build_chart]
  rw [if_neg (not_not_intro hc), hcf]
  exact ⟨_, rfl, rfl, rfl, rfl, rfl, rfl, rfl, rfl, rfl, rfl, rfl⟩

/-- Witness for C8 on a dark-theme chart for a one-point table. -/
theorem build_chart_style_spec_witness :
    ∃ c, build_chart [(("T1", "Close"), [(0, some 1)])] "L" "T1" true
        = .ok c ∧
      c.traces.length = 2 ∧
      c.traces.map Trace.lineColor = ["#1F77B4", "#FF7F0E"] ∧
      c.traces.map Trace.name = ["L" ++ " Close", "30W SMA"] ∧
      c.traces.map Trace.hovertemplate = [hoverTemplate, hoverTemplate] ∧
      c.title = "L" ++ " (" ++ "T1" ++ ") - Weekly Close & 30W SMA" ∧
      c.paperBgcolor = (if true then "#0E0E0E" else "#FAFAFA") ∧
      c.plotBgcolor = (if true then "#111111" else "#FFFFFF") ∧
      c.fontColor = (if true then "#F0F0F0" else "#1A1A1A") ∧
      c.xGridcolor = (if true then "#2A2A2A" else "#E6E6E6") ∧
      c.yGridcolor = (if true then "#2A2A2A" else "#E6E6E6") :=
  build_chart_style_spec [(("T1", "Close"), [(0, some 1)])] "L" "T1" true
    [(0, some 1)] (by decide) rfl

/-- Value of `rollingMean` at a valid index: the mean of the window of
the last `min (i+1) w` values ending at `i`. -/
theorem rollingMean_window (w : ℕ) (xs : List ℚ) (i : ℕ)
    (hi : i < xs.length) :
    (rollingMean w xs).get? i
      = some ((((xs.take (i + 1)).drop (i + 1 - w)).sum)
          / ((((xs.take (i + 1)).drop (i + 1 - w)).length : ℕ) : ℚ)) := by
  simp only [rollingMean, List.get?_map]
  rw [List.get?_range hi]
  rfl

/-- C1: the SMA series of `build_chart` has the length of the
CloseSeries; below index 29 it is the shrinking-window mean of positions
0..i, from index 29 on it is the mean of the trailing 30 points. -/
theorem sma_shrinking_window_spec (field : Series) (i : ℕ)
    (hi : i < (closeSeriesOf field).length) :
    (rollingMean 30 ((closeSeriesOf field).map Prod.snd)).length
        = (closeSeriesOf field).length ∧
    (i < 29 →
      (rollingMean 30 ((closeSeriesOf field).map Prod.snd)).get? i
        = some (((((closeSeriesOf field).map Prod.snd).take (i + 1)).sum)
            / (((i + 1 : ℕ)) : ℚ))) ∧
    (29 ≤ i →
      ((((closeSeriesOf field).map Prod.snd).drop (i - 29)).take 30).length
          = 30 ∧
      (rollingMean 30 ((closeSeriesOf field).map Prod.snd)).get? i
        = some ((((((closeSeriesOf field).map Prod.snd).drop (i - 29)).take
            30).sum) / (30 : ℚ))) := by
  set vals := (closeSeriesOf field).map Prod.snd with hv
  have hlen : vals.length = (closeSeriesOf field).length :=
    List.length_map _ _
  have hi' : i < vals.length := by rw [hlen]; exact hi
  refine ⟨by simp [rollingMean, hlen], ?_, ?_⟩
  · intro h29
    rw [rollingMean_window 30 vals i hi']
    have h0 : i + 1 - 30 = 0 := by omega
    rw [h0, List.drop_zero]
    have hlt : (List.take (i + 1) vals).length = i + 1 := by
      rw [List.length_take]; omega
    rw [hlt]
  · intro h29
    rw [rollingMean_window 30 vals i hi']
    have hdt : (vals.take (i + 1)).drop (i + 1 - 30)
        = (vals.drop (i + 1 - 30)).take ((i + 1) - (i + 1 - 30)) :=
      List.drop_take _ _ _
    have he1 : i + 1 - 30 = i - 29 := by omega
    have he2 : i + 1 - (i - 29) = 30 := by omega
    rw [hdt, he1, he2]
    have hlen30 : ((vals.drop (i - 29)).take 30).length = 30 := by
      rw [List.length_take, List.length_drop]; omega
    refine ⟨hlen30, ?_⟩
    rw [hlen30]
    norm_num

/-- Witness for C1 at a three-week field with one missing value,
checked at index 1 of the two-point CloseSeries. -/
theorem sma_shrinking_window_spec_witness :
    (rollingMean 30 ((closeSeriesOf
        [(0, some 2), (1, none), (2, some 4)]).map Prod.snd)).length
      = (closeSeriesOf [(0, some 2), (1, none), (2, some 4)]).length ∧
    ((1 : ℕ) < 29 →
      (rollingMean 30 ((closeSeriesOf
          [(0, some 2), (1, none), (2, some 4)]).map Prod.snd)).get? 1
        = some (((((closeSeriesOf
            [(0, some 2), (1, none), (2, some 4)]).map Prod.snd).take
            (1 + 1)).sum) / (((1 + 1 : ℕ)) : ℚ))) ∧
    ((29 : ℕ) ≤ 1 →
      ((((closeSeriesOf
          [(0, some 2), (1, none), (2, some 4)]).map Prod.snd).drop
          (1 - 29)).take 30).length = 30 ∧
      (rollingMean 30 ((closeSeriesOf
          [(0, some 2), (1, none), (2, some 4)]).map Prod.snd)).get? 1
        = some ((((((closeSeriesOf
            [(0, some 2), (1, none), (2, some 4)]).map Prod.snd).drop
            (1 - 29)).take 30).sum) / (30 : ℚ))) :=
  sma_shrinking_window_spec [(0, some 2), (1, none), (2, some 4)] 1
    (by decide)

/-- `parseRGB` succeeds on six digits whose pairs parse. -/
theorem parseRGB_six (d1 d2 d3 d4 d5 d6 : Char) (r g b : ℕ)
    (hr : parseHex2 d1 d2 = some r) (hg : parseHex2 d3 d4 = some g)
    (hb : parseHex2 d5 d6 = some b) :
    parseRGB [d1, d2, d3, d4, d5, d6] = some (r, g, b) := by
  simp only [parseRGB]
  rw [hr, hg, hb]

/-- C5: an explicit "dark"/"light" setting is used directly (dark wins
regardless of background); otherwise a 6-hex-digit background yields
dark exactly when the luminance is below 0.45; a 3-digit background is
equivalent to its digit-doubled 6-digit form; and the concrete checks
for `#000000`, `#FFFFFF` and `#000`. -/
theorem theme_detection_spec :
    (∀ base bg, pyLower base = "dark" → is_dark_theme base bg = .ok true) ∧
    (∀ base bg, pyLower base = "light" → is_dark_theme base bg = .ok false) ∧
    (∀ base bg d1 d2 d3 d4 d5 d6 r g b,
      pyLower base ≠ "dark" → pyLower base ≠ "light" →
      bg.data = ['#', d1, d2, d3, d4, d5, d6] →
      parseHex2 d1 d2 = some r → parseHex2 d3 d4 = some g →
      parseHex2 d5 d6 = some b →
      is_dark_theme base bg = .ok (decide (luminance r g b < 45 / 100))) ∧
    (∀ base bg bg6 d1 d2 d3,
      bg.data = ['#', d1, d2, d3] →
      bg6.data = ['#', d1, d1, d2, d2, d3, d3] →
      is_dark_theme base bg = is_dark_theme base bg6) ∧
    is_dark_theme "" "#000000" = .ok true ∧
    is_dark_theme "" "#FFFFFF" = .ok false ∧
    is_dark_theme "" "#000" = .ok true := by
  refine ⟨?_, ?_, ?_, ?_, ?_, ?_, ?_⟩
  · intro base bg h
    simp only [is_dark_theme]
    rw [if_pos (Or.inl h), h]
    rfl
  · intro base bg h
    simp only [is_dark_theme]
    rw [if_pos (Or.inr h), h]
    rfl
  · intro base bg d1 d2 d3 d4 d5 d6 r g b hbase1 hbase2 hbg hr hg hb
    obtain ⟨data⟩ := bg
    replace hbg : data = ['#', d1, d2, d3, d4, d5, d6] := hbg
    subst hbg
    simp only [is_dark_theme]
    rw [if_neg (not_or.mpr ⟨hbase1, hbase2⟩)]
    rw [if_pos (show shapeOk ⟨['#', d1, d2, d3, d4, d5, d6]⟩ = true from rfl)]
    rw [if_neg (show ¬ ['#', d1, d2, d3, d4, d5, d6].length = 4 by simp)]
    rw [show List.drop 1 ['#', d1, d2, d3, d4, d5, d6]
        = [d1, d2, d3, d4, d5, d6] from rfl]
    rw [parseRGB_six d1 d2 d3 d4 d5 d6 r g b hr hg hb]
  · intro base bg bg6 d1 d2 d3 hbg hbg6
    obtain ⟨data⟩ := bg
    obtain ⟨data6⟩ := bg6
    replace hbg : data = ['#', d1, d2, d3] := hbg
    replace hbg6 : data6 = ['#', d1, d1, d2, d2, d3, d3] := hbg6
    subst hbg
    subst hbg6
    by_cases hb : pyLower base = "dark" ∨ pyLower base = "light"
    · simp only [is_dark_theme]
      rw [if_pos hb, if_pos hb]
    · simp only [is_dark_theme]
      rw [if_neg hb, if_neg hb]
      rw [if_pos (show shapeOk ⟨['#', d1, d2, d3]⟩ = true from rfl),
          if_pos (show shapeOk ⟨['#', d1, d1, d2, d2, d3, d3]⟩ = true from rfl)]
      rw [if_pos (show ['#', d1, d2, d3].length = 4 from rfl)]
      rw [if_neg (show ¬ ['#', d1, d1, d2, d2, d3, d3].length = 4 by simp)]
      rfl
  · have h : luminance 0 0 0 < 45 / 100 := by norm_num [luminance]
    calc is_dark_theme "" "#000000"
        = .ok (decide (luminance 0 0 0 < 45 / 100)) := rfl
      _ = .ok true := by rw [decide_eq_true h]
  · have h : ¬ luminance 255 255 255 < 45 / 100 := by norm_num [luminance]
    calc is_dark_theme "" "#FFFFFF"
        = .ok (decide (luminance 255 255 255 < 45 / 100)) := rfl
      _ = .ok false := by rw [decide_eq_false h]
  · have h : luminance 0 0 0 < 45 / 100 := by norm_num [luminance]
    calc is_dark_theme "" "#000"
        = .ok (decide (luminance 0 0 0 < 45 / 100)) := rfl
      _ = .ok true := by rw [decide_eq_true h]

/-- Witness for C5: a mid-value background `#336699` under a
non-explicit theme setting classifies by the luminance formula. -/
theorem theme_detection_spec_witness :
    is_dark_theme "x" "#336699"
      = .ok (decide (luminance 51 102 153 < 45 / 100)) :=
  theme_detection_spec.2.2.1 "x" "#336699" '3' '3' '6' '6' '9' '9'
    51 102 153 (by decide) (by decide) rfl rfl rfl rfl

/-- C6 counterexample: a background that passes the `#`/length shape
check but holds non-hex characters makes the detector raise (Python:
the ValueError of `int(_, 16)`) instead of returning a boolean. -/
theorem is_dark_theme_raises_on_nonhex :
    is_dark_theme "" "#zzzzzz"
      = .error (.valueError "invalid literal for int() with base 16") := rfl

/-- A list of length 3 is a triple. -/
theorem list_len3 {α : Type} (l : List α) (h : l.length = 3) :
    ∃ a b c, l = [a, b, c] := by
  obtain ⟨a, l1, rfl⟩ := List.exists_of_length_succ l h
  obtain ⟨b, l2, rfl⟩ := List.exists_of_length_succ l1 (by simpa using h)
  obtain ⟨c, l3, rfl⟩ := List.exists_of_length_succ l2 (by simpa using h)
  have h3 : l3 = [] := List.eq_nil_of_length_eq_zero (by simpa using h)
  exact ⟨a, b, c, by rw [h3]⟩

/-- A list of length 6 is a sextuple. -/
theorem list_len6 {α : Type} (l : List α) (h : l.length = 6) :
    ∃ a b c d e f, l = [a, b, c, d, e, f] := by
  obtain ⟨a, l1, rfl⟩ := List.exists_of_length_succ l h
  obtain ⟨b, l2, rfl⟩ := List.exists_of_length_succ l1 (by simpa using h)
  obtain ⟨c, l3, rfl⟩ := List.exists_of_length_succ l2 (by simpa using h)
  obtain ⟨d, l4, rfl⟩ := List.exists_of_length_succ l3 (by simpa using h)
  obtain ⟨e, l5, rfl⟩ := List.exists_of_length_succ l4 (by simpa using h)
  obtain ⟨f, l6, rfl⟩ := List.exists_of_length_succ l5 (by simpa using h)
  have h6 : l6 = [] := List.eq_nil_of_length_eq_zero (by simpa using h)
  exact ⟨a, b, c, d, e, f, by rw [h6]⟩

/-- `parseHex2` succeeds on two hex digits. -/
theorem parseHex2_isSome (a b : Char) (ha : (hexDigitVal a).isSome = true)
    (hb : (hexDigitVal b).isSome = true) : ∃ n, parseHex2 a b = some n := by
  obtain ⟨x, hx⟩ := Option.isSome_iff_exists.mp ha
  obtain ⟨y, hy⟩ := Option.isSome_iff_exists.mp hb
  exact ⟨16 * x + y, by simp [parseHex2, hx, hy]⟩

/-- C6 as amended: the detector returns a boolean for every base setting
and every background that either fails the shape check (wrong length or
no leading `#`; then, without an explicit dark/light setting, the
default is light) or consists of hex digits; only a shape-passing
background with a non-hex character raises. -/
theorem is_dark_theme_total_amended :
    (∀ base bg, pyLower base ≠ "dark" → pyLower base ≠ "light" →
      shapeOk bg = false → is_dark_theme base bg = .ok false) ∧
    (∀ base bg,
      (shapeOk bg = false ∨
        ∀ c ∈ bg.data.drop 1, (hexDigitVal c).isSome = true) →
      ∃ v, is_dark_theme base bg = .ok v) := by
  constructor
  · intro base bg h1 h2 hsh
    simp only [is_dark_theme]
    rw [if_neg (not_or.mpr ⟨h1, h2⟩), if_neg (by simp [hsh])]
  · intro base bg hh
    by_cases hb : pyLower base = "dark" ∨ pyLower base = "light"
    · exact ⟨_, by simp only [is_dark_theme]; rw [if_pos hb]⟩
    · by_cases hsh : shapeOk bg = true
      · rcases hh with hsh0 | hhex
        · rw [hsh] at hsh0
          exact absurd hsh0 (by simp)
        · obtain ⟨data⟩ := bg
          replace hhex : ∀ c ∈ data.drop 1, (hexDigitVal c).isSome = true :=
            hhex
          replace hsh : shapeOk ⟨data⟩ = true := hsh
          simp only [shapeOk, Bool.and_eq_true, Bool.or_eq_true,
            beq_iff_eq] at hsh
          obtain ⟨hhead, hlen⟩ := hsh
          cases data with
          | nil => simp at hhead
          | cons c0 rest =>
            have hc0 : c0 = '#' := by simpa using hhead
            subst hc0
            replace hhex : ∀ c ∈ rest, (hexDigitVal c).isSome = true := by
              intro c hc
              exact hhex c (by simpa using hc)
            rcases hlen with h4 | h7
            · obtain ⟨a, b, c, rfl⟩ := list_len3 rest (by simpa using h4)
              obtain ⟨r, hr⟩ :=
                parseHex2_isSome a a (hhex a (by simp)) (hhex a (by simp))
              obtain ⟨g, hg⟩ :=
                parseHex2_isSome b b (hhex b (by simp)) (hhex b (by simp))
              obtain ⟨v, hv⟩ :=
                parseHex2_isSome c c (hhex c (by simp)) (hhex c (by simp))
              have hres : is_dark_theme base ⟨['#', a, b, c]⟩
                  = .ok (decide (luminance r g v < 45 / 100)) := by
                simp only [is_dark_theme]
                rw [if_neg hb,
                  if_pos (show shapeOk ⟨['#', a, b, c]⟩ = true from rfl),
                  if_pos (show ['#', a, b, c].length = 4 from rfl),
                  show (List.drop 1 ['#', a, b, c]).flatMap (fun x => [x, x])
                    = [a, a, b, b, c, c] from rfl,
                  parseRGB_six a a b b c c r g v hr hg hv]
              exact ⟨_, hres⟩
            · obtain ⟨a, b, c, d, e, f, rfl⟩ :=
                list_len6 rest (by simpa using h7)
              obtain ⟨r, hr⟩ :=
                parseHex2_isSome a b (hhex a (by simp)) (hhex b (by simp))
              obtain ⟨g, hg⟩ :=
                parseHex2_isSome c d (hhex c (by simp)) (hhex d (by simp))
              obtain ⟨v, hv⟩ :=
                parseHex2_isSome e f (hhex e (by simp)) (hhex f (by simp))
              have hres : is_dark_theme base ⟨['#', a, b, c, d, e, f]⟩
                  = .ok (decide (luminance r g v < 45 / 100)) := by
                simp only [is_dark_theme]
                rw [if_neg hb,
                  if_pos (show shapeOk ⟨['#', a, b, c, d, e, f]⟩ = true from
                    rfl),
                  if_neg (show ¬ ['#', a, b, c, d, e, f].length = 4 by simp),
                  show List.drop 1 ['#', a, b, c, d, e, f]
                    = [a, b, c, d, e, f] from rfl,
                  parseRGB_six a b c d e f r g v hr hg hv]
              exact ⟨_, hres⟩
      · refine ⟨false, ?_⟩
        simp only [is_dark_theme]
        rw [if_neg hb, if_neg hsh]

/-- Witness for C6 as amended: a background failing the shape check
defaults to light. -/
theorem is_dark_theme_total_amended_witness :
    is_dark_theme "" "red" = .ok false :=
  is_dark_theme_total_amended.1 "" "red" (by decide) (by decide) rfl

/-- C4 counterexample: a KeyError (ticker present without a Close
column) is not the missing-ticker error, yet the loop recovers it as a
warning and keeps rendering the remaining tickers — it is not fatal. -/
theorem render_loop_catchall_counterexample :
    build_chart [(("T1", "Open"), [])] "A" "T1" false
      = .error (.keyError "Close") ∧
    renderCharts [(("T1", "Open"), [])] false 0 [("A", "T1"), ("B", "T2")]
      = [.warning "A (T1) - Close",
         .warning "B (T2) - No data returned for T2"] :=
  ⟨rfl, rfl⟩

/-- C4 as amended: the loop recovers every exception `build_chart`
raises — whatever its kind — as a warning naming label, ticker and
message, and continues with the remaining tickers; only failures
outside the per-ticker try block are fatal. -/
theorem render_loop_recovers_every_error (df : PriceTable) (isDark : Bool)
    (idx : ℕ) (label ticker : String) (rest : List (String × String))
    (e : PyError) (hblank : pyIsBlank ticker = false)
    (herr : build_chart df label ticker isDark = .error e) :
    renderCharts df isDark idx ((label, ticker) :: rest)
      = .warning (label ++ " (" ++ ticker ++ ") - " ++ msgOf e)
          :: renderCharts df isDark (idx + 1) rest := by
  simp only [renderCharts]
  rw [if_neg (by simp [hblank]), herr]

/-- Witness for C4 as amended at a concrete KeyError-producing table. -/
theorem render_loop_recovers_every_error_witness :
    renderCharts [(("T1", "Open"), [])] false 0 [("A", "T1")]
      = .warning ("A" ++ " (" ++ "T1" ++ ") - " ++ msgOf (.keyError "Close"))
          :: renderCharts [(("T1", "Open"), [])] false (0 + 1) [] :=
  render_loop_recovers_every_error [(("T1", "Open"), [])] false 0 "A" "T1"
    [] (.keyError "Close") rfl rfl

end Bees
